import Mathlib

/-!
STM32 system tick timer (`arch/arm/mach-stm32/timer.c`).

A shallow embedding of the TIM2 clock-event driver: the memory-mapped
registers the driver touches are fields of an explicit `World`, every
register write is appended to a trace (with the CPU interrupt mask at the
time of the write), and the kernel services the driver calls but does not
define are either parameters (`Env`) or trace events.

Machine integers are natural numbers; a store to a `u16` register keeps the
value modulo `2 ^ 16`, a store to a `u32` register modulo `2 ^ 32`.
Registers are memory: a read returns the value last stored. What the
peripheral does on its own (a reset pulse clearing the block, `egr` reading
back as zero) is not code of the driver and is left out.
-/

namespace Stm32Timer

set_option linter.unusedVariables false

/-! ## Constants of the source file -/

/-- Constant `STM32_RCC_MSK_TIM2`, `(1 << 0)`. -/
def STM32_RCC_MSK_TIM2 : Nat := 1 <<< 0

/-- Constant `STM32_TIM2_IRQ`. -/
def STM32_TIM2_IRQ : Nat := 28

/-- Constant `STM32_TIM_CR1_CEN`, counter enable, `(1 << 0)`. -/
def STM32_TIM_CR1_CEN : Nat := 1 <<< 0

/-- Constant `STM32_TIM_DIER_UIE`, update interrupt enable, `(1 << 0)`. -/
def STM32_TIM_DIER_UIE : Nat := 1 <<< 0

/-- Constant `STM32_TIM_SR_UIF`, update interrupt flag, `(1 << 0)`. -/
def STM32_TIM_SR_UIF : Nat := 1 <<< 0

/-- Constant `STM32_TIM_EGR_UG`, update generation, `(1 << 0)`. -/
def STM32_TIM_EGR_UG : Nat := 1 <<< 0

/-- Constant `TICK_TIM_IRQ`. -/
def TICK_TIM_IRQ : Nat := STM32_TIM2_IRQ

/-- Constant `TICK_TIM_RCC_MSK`. -/
def TICK_TIM_RCC_MSK : Nat := STM32_RCC_MSK_TIM2

/-- The C expression `~x` for an `int` constant `x`, as its 32-bit two's
complement bit pattern. -/
def cnot (x : Nat) : Nat := 2 ^ 32 - 1 - x % 2 ^ 32

/-! ## Data model -/

/-- The register map `struct stm32_tim_regs` without its reserved half-words. The `u16`
fields hold values below `2 ^ 16`, the `u32` fields below `2 ^ 32`. -/
structure stm32_tim_regs where
  cr1 : Nat
  cr2 : Nat
  smcr : Nat
  dier : Nat
  sr : Nat
  egr : Nat
  ccmr1 : Nat
  ccmr2 : Nat
  ccer : Nat
  cnt : Nat
  psc : Nat
  arr : Nat
  rcr : Nat
  ccr1 : Nat
  ccr2 : Nat
  ccr3 : Nat
  ccr4 : Nat
  bdtr : Nat
  dcr : Nat
  dmar : Nat
  or : Nat
  deriving DecidableEq

/-- Modelled from the spec: `struct stm32_rcc_regs` is declared in
`mach/stm32.h`, which is not part of the source at hand; the driver reaches
only its `apb1enr` (clock enable) and `apb1rstr` (reset) words, both `u32`. -/
structure stm32_rcc_regs where
  apb1enr : Nat
  apb1rstr : Nat
  deriving DecidableEq

/-- Modelled from the spec: `struct clock_event_device` is declared in
`linux/clockchips.h`, which is not part of the source at hand. Kept are the
fields the driver assigns or reads at run time. `event_handler` is a
function pointer, `0` being the null pointer (no callback registered). -/
structure clock_event_device where
  mult : Nat
  shift : Nat
  max_delta_ns : Nat
  min_delta_ns : Nat
  event_handler : Nat
  deriving DecidableEq

/-- Modelled from the spec: `enum clock_event_mode` is declared in
`linux/clockchips.h`, which is not part of the source at hand. The five
enumerators the driver names, and `other raw` for a value that is none of
them (the `default:` arm of the switch). -/
inductive clock_event_mode where
  | CLOCK_EVT_MODE_UNUSED
  | CLOCK_EVT_MODE_SHUTDOWN
  | CLOCK_EVT_MODE_PERIODIC
  | CLOCK_EVT_MODE_ONESHOT
  | CLOCK_EVT_MODE_RESUME
  | other (raw : Nat)
  deriving DecidableEq

/-- Modelled from the spec: `irqreturn_t` is declared in
`linux/irqreturn.h`, which is not part of the source at hand. -/
inductive irqreturn_t where
  | IRQ_NONE
  | IRQ_HANDLED
  deriving DecidableEq

/-- The statically allocated objects of the file that are passed by
address. -/
inductive Global where
  | tick_tmr_clockevent
  | tick_tmr_irqaction
  deriving DecidableEq

/-- The registers the driver accesses: seven of TIM2 and two of the RCC. -/
inductive Reg where
  | cr1
  | dier
  | sr
  | egr
  | cnt
  | psc
  | arr
  | apb1enr
  | apb1rstr
  deriving DecidableEq

/-- Width in bits of a register, from the field types of the register
maps. -/
def Reg.width : Reg → Nat
  | .cr1 => 16
  | .dier => 16
  | .sr => 16
  | .egr => 16
  | .psc => 16
  | .cnt => 32
  | .arr => 32
  | .apb1enr => 32
  | .apb1rstr => 32

/-- What the driver does that is visible outside it, in program order. -/
inductive Event where
  | write (r : Reg) (v : Nat) (irqs_off : Bool)
  | call_event_handler (fn : Nat) (arg : Global)
  | setup_irq (irq : Nat) (act : Global)
  | clockevents_calc_mult_shift (dev : Global) (freq : Nat) (minsec : Nat)
  | clockevent_delta2ns (latch : Nat) (dev : Global)
  | clockevents_register_device (dev : Global)
  deriving DecidableEq

/-- Whether the event is a register write. -/
def Event.isWrite : Event → Bool
  | .write _ _ _ => true
  | _ => false

/-- Everything the driver reads or changes: the TIM2 register block, the
two RCC words, the clock-event descriptor `tick_tmr_clockevent`, the CPU
interrupt mask, and the trace of events so far. -/
structure World where
  tim : stm32_tim_regs
  rcc : stm32_rcc_regs
  evt : clock_event_device
  irqs_disabled : Bool
  trace : List Event
  deriving DecidableEq

/-- Outcome of a function that may fault: a normal return with its value
and the world it leaves, or a fault with the world at the faulting point. -/
inductive Outcome (α : Type) where
  | returned (val : α) (w : World)
  | fault (w : World)
  deriving DecidableEq

/-- Whether the outcome is a normal return. -/
def Outcome.isReturned {α : Type} : Outcome α → Bool
  | .returned _ _ => true
  | .fault _ => false

/-- The world an outcome carries. -/
def Outcome.world {α : Type} : Outcome α → World
  | .returned _ w => w
  | .fault w => w

/-- The kernel code the driver calls and does not define.
`event_handler fn dev` is the function a non-null `event_handler` pointer
`fn` designates, called with the device `dev`; it returns, and may change
the world (it may re-arm the timer).
`clockevents_calc_mult_shift freq minsec` is the `(mult, shift)` pair that
`clockevents_calc_mult_shift` stores into the device.
`clockevent_delta2ns latch dev` is the value `clockevent_delta2ns`
returns. -/
structure Env where
  event_handler : Nat → Global → World → World
  clockevents_calc_mult_shift : Nat → Nat → Nat × Nat
  clockevent_delta2ns : Nat → clock_event_device → Nat

/-! ## Register access -/

/-- A volatile read of a register. -/
def World.read (w : World) : Reg → Nat
  | .cr1 => w.tim.cr1
  | .dier => w.tim.dier
  | .sr => w.tim.sr
  | .egr => w.tim.egr
  | .cnt => w.tim.cnt
  | .psc => w.tim.psc
  | .arr => w.tim.arr
  | .apb1enr => w.rcc.apb1enr
  | .apb1rstr => w.rcc.apb1rstr

/-- The register file after `r` receives `v` (already of the register's
width). -/
def World.poke (w : World) (r : Reg) (v : Nat) : World :=
  match r with
  | .cr1 => { w with tim := { w.tim with cr1 := v } }
  | .dier => { w with tim := { w.tim with dier := v } }
  | .sr => { w with tim := { w.tim with sr := v } }
  | .egr => { w with tim := { w.tim with egr := v } }
  | .cnt => { w with tim := { w.tim with cnt := v } }
  | .psc => { w with tim := { w.tim with psc := v } }
  | .arr => { w with tim := { w.tim with arr := v } }
  | .apb1enr => { w with rcc := { w.rcc with apb1enr := v } }
  | .apb1rstr => { w with rcc := { w.rcc with apb1rstr := v } }

/-- Appends an event to the trace. -/
def World.emit (w : World) (e : Event) : World :=
  { w with trace := w.trace ++ [e] }

/-- A volatile write of `v` to register `r`: the value is converted to the
register's width, stored, and the write is recorded with the interrupt mask
in force. -/
def World.write (w : World) (r : Reg) (v : Nat) : World :=
  (w.poke r (v % 2 ^ r.width)).emit (.write r (v % 2 ^ r.width) w.irqs_disabled)

/-! ## The driver -/

/-- Function `tick_tmr_set_mode`: system timer clock event device set mode
function. -/
def tick_tmr_set_mode (mode : clock_event_mode) (clk : Global) (w : World) : World :=
  match mode with
  | .CLOCK_EVT_MODE_PERIODIC => w.write .cr1 (w.read .cr1 ||| STM32_TIM_CR1_CEN)
  | .CLOCK_EVT_MODE_RESUME => w.write .cr1 (w.read .cr1 ||| STM32_TIM_CR1_CEN)
  | .CLOCK_EVT_MODE_ONESHOT => w.write .cr1 (w.read .cr1 &&& cnot STM32_TIM_CR1_CEN)
  | .CLOCK_EVT_MODE_UNUSED => w.write .cr1 (w.read .cr1 &&& cnot STM32_TIM_CR1_CEN)
  | .CLOCK_EVT_MODE_SHUTDOWN => w.write .cr1 (w.read .cr1 &&& cnot STM32_TIM_CR1_CEN)
  | .other _ => w.write .cr1 (w.read .cr1 &&& cnot STM32_TIM_CR1_CEN)

/-- Modelled from the spec: `raw_local_irq_save` is a macro of
`asm/irqflags.h`, which is not part of the source at hand. It acquires the
interrupt mask: the mask in force is returned (the saved `flags`) and
interrupts are disabled. -/
def raw_local_irq_save (w : World) : Bool × World :=
  (w.irqs_disabled, { w with irqs_disabled := true })

/-- Modelled from the spec: `raw_local_irq_restore` is a macro of
`asm/irqflags.h`, which is not part of the source at hand. It restores the
interrupt mask saved in `flags`. -/
def raw_local_irq_restore (flags : Bool) (w : World) : World :=
  { w with irqs_disabled := flags }

/-- Function `tick_tmr_set_next_event`: configure the timer to generate an interrupt
in the specified amount of ticks. Returns the `int` result and the world. -/
def tick_tmr_set_next_event (delta : Nat) (clk : Global) (w : World) : Int × World :=
  let s := raw_local_irq_save w
  let flags := s.1
  let w1 := s.2.write .arr delta
  let w2 := w1.write .cnt 0
  let w3 := w2.write .cr1 (w2.read .cr1 ||| STM32_TIM_CR1_CEN)
  let w4 := raw_local_irq_restore flags w3
  (0, w4)

/-- Function `tick_tmr_irq_handler`: system timer IRQ handler. The call through
`evt->event_handler` has no guard in the source: with a null pointer it
faults at the call, after the status write. -/
def tick_tmr_irq_handler (env : Env) (irq : Int) (dev_id : Nat) (w : World) :
    Outcome irqreturn_t :=
  let evt := Global.tick_tmr_clockevent
  let w1 := w.write .sr (w.read .sr &&& cnot STM32_TIM_SR_UIF)
  if w1.evt.event_handler = 0 then
    .fault w1
  else
    let w2 := w1.emit (.call_event_handler w1.evt.event_handler evt)
    let w3 := env.event_handler w1.evt.event_handler evt w2
    .returned .IRQ_HANDLED w3

/-- Modelled from the spec: `setup_irq` is a service of the interrupt
controller code (`register_interrupt(line_id, handler)`), not part of the
source at hand. The timer's register block is owned by the driver alone, so
the call is recorded and changes nothing else. -/
def setup_irq (irq : Nat) (act : Global) (w : World) : World :=
  w.emit (.setup_irq irq act)

/-- Modelled from the spec: `clockevents_calc_mult_shift` belongs to the
clock-event framework, not part of the source at hand. It derives the
multiplier and shift of the device from the frequency and the conversion
range in seconds, and stores them into the device. -/
def clockevents_calc_mult_shift (env : Env) (dev : Global) (freq : Nat) (minsec : Nat)
    (w : World) : World :=
  let ms := env.clockevents_calc_mult_shift freq minsec
  { w with evt := { w.evt with mult := ms.1, shift := ms.2 } }.emit
    (.clockevents_calc_mult_shift dev freq minsec)

/-- Modelled from the spec: `clockevent_delta2ns` belongs to the clock-event
framework, not part of the source at hand. It converts a tick count to
nanoseconds with the multiplier and shift of the device (a pure function of
the tick count and the device). -/
def clockevent_delta2ns (env : Env) (latch : Nat) (dev : Global) (w : World) : Nat × World :=
  (env.clockevent_delta2ns latch w.evt, w.emit (.clockevent_delta2ns latch dev))

/-- Modelled from the spec: `clockevents_register_device` belongs to the
clock-event framework, not part of the source at hand. The timer's register
block is owned by the driver alone, so the call is recorded and changes
nothing else. -/
def clockevents_register_device (dev : Global) (w : World) : World :=
  w.emit (.clockevents_register_device dev)

/-- Function `tick_tmr_init`: system timer clockevents init. The argument is a `u32`.
The division in the first declaration faults for a zero frequency, before
any register is touched. -/
def tick_tmr_init (env : Env) (tmr_clk_freq : Nat) (w : World) : Outcome Unit :=
  let tmr_clk_freq := tmr_clk_freq % 2 ^ 32
  if tmr_clk_freq = 0 then
    .fault w
  else
    let max_delay_in_sec := 0xFFFFFFFF / tmr_clk_freq
    let evt := Global.tick_tmr_clockevent
    let w1 := w.write .apb1enr (w.read .apb1enr ||| TICK_TIM_RCC_MSK)
    let w2 := w1.write .apb1rstr (w1.read .apb1rstr ||| TICK_TIM_RCC_MSK)
    let w3 := w2.write .apb1rstr (w2.read .apb1rstr &&& cnot TICK_TIM_RCC_MSK)
    let w4 := w3.write .cr1 0
    let w5 := w4.write .arr 0xFFFFFFFF
    let w6 := w5.write .psc 0
    let w7 := w6.write .cnt 0
    let w8 := w7.write .egr STM32_TIM_EGR_UG
    let w9 := setup_irq TICK_TIM_IRQ .tick_tmr_irqaction w8
    let w10 := w9.write .dier (w9.read .dier ||| STM32_TIM_DIER_UIE)
    let w11 := clockevents_calc_mult_shift env evt tmr_clk_freq max_delay_in_sec w10
    let r12 := clockevent_delta2ns env 0xFFFFFFF0 evt w11
    let w12 := { r12.2 with evt := { r12.2.evt with max_delta_ns := r12.1 } }
    let r13 := clockevent_delta2ns env 0xF evt w12
    let w13 := { r13.2 with evt := { r13.2.evt with min_delta_ns := r13.1 } }
    .returned () (clockevents_register_device evt w13)

/-- A register block with every register zero. -/
def tim_zero : stm32_tim_regs :=
  ⟨0, 0, 0, 0, 0, 0, 0, 0, 0, 0, 0, 0, 0, 0, 0, 0, 0, 0, 0, 0, 0⟩

/-- A world with the counter running (`cr1 = 0x81`), the update flag
pending among other status bits (`sr = 0x1F`), a callback registered at
`0x08001234`, interrupts enabled and an empty trace. -/
def w_run : World :=
  { tim := { tim_zero with cr1 := 0x81, sr := 0x1F, cnt := 57, arr := 1000, dier := 1 }
    rcc := ⟨0x10, 0x20⟩
    evt := ⟨0, 0, 0, 0, 0x08001234⟩
    irqs_disabled := false
    trace := [] }

/-- As `w_run`, with no update flag pending (`sr = 0x1E`). -/
def w_idle : World :=
  { w_run with tim := { w_run.tim with sr := 0x1E } }

/-- As `w_run`, with no callback registered. -/
def w_nocb : World :=
  { w_run with evt := { w_run.evt with event_handler := 0 } }

/-- Kernel code for the concrete inputs: the registered callback re-arms the
timer for 100 ticks; the conversion helpers follow the multiply-shift scheme
with a fixed 32-bit shift. -/
def env0 : Env :=
  { event_handler := fun _ dev w => (tick_tmr_set_next_event 100 dev w).2
    clockevents_calc_mult_shift := fun freq _ => (freq * 2 ^ 32 / 1000000000, 32)
    clockevent_delta2ns := fun latch dev => latch * 2 ^ dev.shift / (max dev.mult 1) }

/-! ## Bit-level facts -/

theorem cnot_one : cnot 1 = (2 ^ 31 - 1) <<< 1 := by decide

theorem testBit_cnot_one (i : Nat) :
    (cnot 1).testBit i = (decide (1 ≤ i) && decide (i < 32)) := by
  rw [cnot_one, Nat.testBit_shiftLeft, Nat.testBit_two_pow_sub_one]
  by_cases hi : 1 ≤ i
  · have : (i - 1 < 31) ↔ (i < 32) := by omega
    simp [hi, this]
  · simp [hi]

theorem testBit_lt_of_lt {x n i : Nat} (hx : x < 2 ^ n) (hi : n ≤ i) :
    x.testBit i = false :=
  Nat.testBit_lt_two_pow (lt_of_lt_of_le hx (Nat.pow_le_pow_right (by decide) hi))

/-- Clearing bit 0 with the 32-bit mask `~1` and storing into a 16-bit
register is the 16-bit mask `0xFFFE`. -/
theorem and_cnot_one_u16 (x : Nat) :
    (x &&& cnot 1) % 65536 = (x % 65536) &&& 65534 := by
  apply Nat.eq_of_testBit_eq
  intro i
  have h : (65534 : Nat) = (2 ^ 15 - 1) <<< 1 := by decide
  have h16 : (65536 : Nat) = 2 ^ 16 := by decide
  rw [h, h16]
  simp only [Nat.testBit_mod_two_pow, Nat.testBit_and, testBit_cnot_one,
    Nat.testBit_shiftLeft, Nat.testBit_two_pow_sub_one]
  by_cases h1 : 1 ≤ i <;> by_cases h2 : i < 16 <;> simp [h1, h2]
  have h3 : i < 32 := by omega
  have h4 : i - 1 < 15 := by omega
  simp [h3, h4]

/-- Clearing bit 0 with the 32-bit mask `~1` and storing into a 32-bit
register. -/
theorem and_cnot_one_u32 (x : Nat) :
    (x &&& cnot 1) % 4294967296 = (x % 4294967296) &&& 4294967294 := by
  apply Nat.eq_of_testBit_eq
  intro i
  have h : (4294967294 : Nat) = (2 ^ 31 - 1) <<< 1 := by decide
  have h32 : (4294967296 : Nat) = 2 ^ 32 := by decide
  rw [h, h32]
  simp only [Nat.testBit_mod_two_pow, Nat.testBit_and, testBit_cnot_one,
    Nat.testBit_shiftLeft, Nat.testBit_two_pow_sub_one]
  by_cases h1 : 1 ≤ i <;> by_cases h2 : i < 32 <;> simp [h1, h2]
  have h4 : i - 1 < 31 := by omega
  simp [h4]

theorem or_one_u16 {x : Nat} (hx : x < 65536) : (x ||| 1) % 65536 = x ||| 1 :=
  Nat.mod_eq_of_lt (Nat.or_lt_two_pow (n := 16) hx (by decide))

theorem or_one_u32 {x : Nat} (hx : x < 4294967296) : (x ||| 1) % 4294967296 = x ||| 1 :=
  Nat.mod_eq_of_lt (Nat.or_lt_two_pow (n := 32) hx (by decide))

/-- Bit 0 of `x & 0xFFFE` is clear and the other bits of a 16-bit `x` are
kept. -/
theorem testBit_and_fffe {x : Nat} (hx : x < 65536) (i : Nat) :
    (x &&& 65534).testBit i = (decide (1 ≤ i) && x.testBit i) := by
  have h : (65534 : Nat) = (2 ^ 15 - 1) <<< 1 := by decide
  rw [h, Nat.testBit_and, Nat.testBit_shiftLeft, Nat.testBit_two_pow_sub_one]
  by_cases h1 : 1 ≤ i
  · by_cases h2 : i < 16
    · have h4 : i - 1 < 15 := by omega
      simp [h1, h4]
    · have h5 : x.testBit i = false := testBit_lt_of_lt (n := 16) hx (by omega)
      simp [h5]
  · simp [h1]

/-- Bit 0 of `x & 0xFFFFFFFE` is clear and the other bits of a 32-bit `x`
are kept. -/
theorem testBit_and_fffffffe {x : Nat} (hx : x < 4294967296) (i : Nat) :
    (x &&& 4294967294).testBit i = (decide (1 ≤ i) && x.testBit i) := by
  have h : (4294967294 : Nat) = (2 ^ 31 - 1) <<< 1 := by decide
  rw [h, Nat.testBit_and, Nat.testBit_shiftLeft, Nat.testBit_two_pow_sub_one]
  by_cases h1 : 1 ≤ i
  · by_cases h2 : i < 32
    · have h4 : i - 1 < 31 := by omega
      simp [h1, h4]
    · have h5 : x.testBit i = false := testBit_lt_of_lt (n := 32) hx (by omega)
      simp [h5]
  · simp [h1]

/-- Bit 0 of `x | 1` is set and the other bits are kept. -/
theorem testBit_or_one (x i : Nat) :
    (x ||| 1).testBit i = (decide (i = 0) || x.testBit i) := by
  rw [Nat.testBit_or]
  cases i with
  | zero => simp
  | succ j =>
    have : Nat.testBit 1 (j + 1) = false := by
      rw [Nat.testBit_succ]; simp
    simp [this]

@[simp] theorem CEN_eq : STM32_TIM_CR1_CEN = 1 := rfl
@[simp] theorem UIE_eq : STM32_TIM_DIER_UIE = 1 := rfl
@[simp] theorem UIF_eq : STM32_TIM_SR_UIF = 1 := rfl
@[simp] theorem UG_eq : STM32_TIM_EGR_UG = 1 := rfl
@[simp] theorem RCC_MSK_eq : TICK_TIM_RCC_MSK = 1 := rfl
@[simp] theorem TICK_IRQ_eq : TICK_TIM_IRQ = 28 := rfl

/-! ## Mode switch -/

/-- What `tick_tmr_set_mode` stores into `cr1`. -/
theorem tick_tmr_set_mode_cr1 (mode : clock_event_mode) (clk : Global) (w : World) :
    (tick_tmr_set_mode mode clk w).tim.cr1 =
      if mode = .CLOCK_EVT_MODE_PERIODIC ∨ mode = .CLOCK_EVT_MODE_RESUME then
        (w.tim.cr1 ||| 1) % 65536
      else (w.tim.cr1 % 65536) &&& 65534 := by
  cases mode <;>
    simp [tick_tmr_set_mode, World.write, World.poke, World.emit, World.read, Reg.width,
      and_cnot_one_u16]

/-- C1: for every register state (a 16-bit `cr1`) and every requested mode,
`tick_tmr_set_mode` leaves `cr1` equal to `old cr1 | CEN` when the mode is
PERIODIC or RESUME and equal to `old cr1 & ~CEN` for ONESHOT, UNUSED,
SHUTDOWN and any unrecognised value; bit 0 of `cr1` ends set exactly for
PERIODIC/RESUME and the other bits of `cr1` are unchanged. -/
theorem tick_tmr_set_mode_enable_bit (mode : clock_event_mode) (clk : Global) (w : World)
    (hcr1 : w.tim.cr1 < 2 ^ 16) :
    ((mode = .CLOCK_EVT_MODE_PERIODIC ∨ mode = .CLOCK_EVT_MODE_RESUME) →
      (tick_tmr_set_mode mode clk w).tim.cr1 = w.tim.cr1 ||| STM32_TIM_CR1_CEN) ∧
    (¬ (mode = .CLOCK_EVT_MODE_PERIODIC ∨ mode = .CLOCK_EVT_MODE_RESUME) →
      (tick_tmr_set_mode mode clk w).tim.cr1 =
        w.tim.cr1 &&& (0xFFFF - STM32_TIM_CR1_CEN)) ∧
    ((tick_tmr_set_mode mode clk w).tim.cr1.testBit 0 = true ↔
      (mode = .CLOCK_EVT_MODE_PERIODIC ∨ mode = .CLOCK_EVT_MODE_RESUME)) ∧
    (∀ i, 1 ≤ i →
      (tick_tmr_set_mode mode clk w).tim.cr1.testBit i = w.tim.cr1.testBit i) := by
  have hlt : w.tim.cr1 < 65536 := hcr1
  rw [tick_tmr_set_mode_cr1, or_one_u16 hlt, Nat.mod_eq_of_lt hlt]
  by_cases hm : mode = .CLOCK_EVT_MODE_PERIODIC ∨ mode = .CLOCK_EVT_MODE_RESUME
  · rw [if_pos hm]
    refine ⟨fun _ => rfl, fun h => absurd hm h, ?_, ?_⟩
    · rw [testBit_or_one]
      simp [hm]
    · intro i hi
      have : i ≠ 0 := by omega
      rw [testBit_or_one]
      simp [this]
  · rw [if_neg hm]
    refine ⟨fun h => absurd h hm, fun _ => rfl, ?_, ?_⟩
    · simp [hm, testBit_and_fffe hlt]
    · intro i hi
      simp [testBit_and_fffe hlt, hi]

/-- C1 at a concrete input: SHUTDOWN on `cr1 = 0x81` leaves `0x80`, PERIODIC
on the same state leaves `0x81`. -/
theorem tick_tmr_set_mode_enable_bit_witness :
    w_run.tim.cr1 < 2 ^ 16 ∧
    (tick_tmr_set_mode .CLOCK_EVT_MODE_SHUTDOWN .tick_tmr_clockevent w_run).tim.cr1 =
      0x81 &&& (0xFFFF - STM32_TIM_CR1_CEN) ∧
    (tick_tmr_set_mode .CLOCK_EVT_MODE_PERIODIC .tick_tmr_clockevent w_run).tim.cr1 =
      0x81 ||| STM32_TIM_CR1_CEN :=
  ⟨by decide,
   (tick_tmr_set_mode_enable_bit .CLOCK_EVT_MODE_SHUTDOWN .tick_tmr_clockevent w_run
      (by decide)).2.1 (by decide),
   (tick_tmr_set_mode_enable_bit .CLOCK_EVT_MODE_PERIODIC .tick_tmr_clockevent w_run
      (by decide)).1 (by decide)⟩

/-! ## Programming the next event -/

/-- The world `tick_tmr_set_next_event` leaves, written out. -/
theorem tick_tmr_set_next_event_eq (delta : Nat) (clk : Global) (w : World) :
    tick_tmr_set_next_event delta clk w =
      (0, { w with
              tim := { w.tim with
                        arr := delta % 4294967296
                        cnt := 0
                        cr1 := (w.tim.cr1 ||| 1) % 65536 }
              trace := w.trace ++
                [.write .arr (delta % 4294967296) true, .write .cnt 0 true,
                 .write .cr1 ((w.tim.cr1 ||| 1) % 65536) true] }) := by
  simp [tick_tmr_set_next_event, raw_local_irq_save, raw_local_irq_restore, World.write,
    World.poke, World.emit, World.read, Reg.width]

/-- C2: for every register state (a 16-bit `cr1`) and every 32-bit `delta`,
`tick_tmr_set_next_event delta` returns 0 and leaves `arr = delta`,
`cnt = 0` and `cr1 = old cr1 | CEN`; the writes it issues are, in this
order, `arr`, `cnt`, `cr1`, and it issues no other. -/
theorem tick_tmr_set_next_event_effect (delta : Nat) (clk : Global) (w : World)
    (hdelta : delta < 2 ^ 32) (hcr1 : w.tim.cr1 < 2 ^ 16) :
    (tick_tmr_set_next_event delta clk w).1 = 0 ∧
    (tick_tmr_set_next_event delta clk w).2.tim.arr = delta ∧
    (tick_tmr_set_next_event delta clk w).2.tim.cnt = 0 ∧
    (tick_tmr_set_next_event delta clk w).2.tim.cr1 = w.tim.cr1 ||| STM32_TIM_CR1_CEN ∧
    (tick_tmr_set_next_event delta clk w).2.trace =
      w.trace ++ [.write .arr delta true, .write .cnt 0 true,
                  .write .cr1 (w.tim.cr1 ||| STM32_TIM_CR1_CEN) true] := by
  have h1 : delta % 4294967296 = delta := Nat.mod_eq_of_lt hdelta
  have h2 : w.tim.cr1 < 65536 := hcr1
  rw [tick_tmr_set_next_event_eq]
  simp [h1, or_one_u16 h2]

/-- C2 at a concrete input: arming for 24 000 000 ticks on `cr1 = 0x81`,
`cnt = 57`, `arr = 1000`. -/
theorem tick_tmr_set_next_event_effect_witness :
    (24000000 < 2 ^ 32 ∧ w_run.tim.cr1 < 2 ^ 16) ∧
    (tick_tmr_set_next_event 24000000 .tick_tmr_clockevent w_run).1 = 0 ∧
    (tick_tmr_set_next_event 24000000 .tick_tmr_clockevent w_run).2.tim.arr = 24000000 ∧
    (tick_tmr_set_next_event 24000000 .tick_tmr_clockevent w_run).2.tim.cnt = 0 :=
  ⟨⟨by decide, by decide⟩,
   (tick_tmr_set_next_event_effect 24000000 .tick_tmr_clockevent w_run
      (by decide) (by decide)).1,
   (tick_tmr_set_next_event_effect 24000000 .tick_tmr_clockevent w_run
      (by decide) (by decide)).2.1,
   (tick_tmr_set_next_event_effect 24000000 .tick_tmr_clockevent w_run
      (by decide) (by decide)).2.2.1⟩

/-- C10: with the CPU interrupt mask as explicit state, for every initial
mask and register state each of the three register writes of
`tick_tmr_set_next_event` (`arr`, `cnt`, `cr1`, the only events it adds to
the trace) is issued with interrupts disabled, and on return the interrupt
mask equals its value before the call. -/
theorem tick_tmr_set_next_event_irq_scope (delta : Nat) (clk : Global) (w : World) :
    (tick_tmr_set_next_event delta clk w).2.irqs_disabled = w.irqs_disabled ∧
    (tick_tmr_set_next_event delta clk w).2.trace =
      w.trace ++ [.write .arr (delta % 2 ^ 32) true, .write .cnt 0 true,
                  .write .cr1 ((w.tim.cr1 ||| STM32_TIM_CR1_CEN) % 2 ^ 16) true] ∧
    (∀ e ∈ (tick_tmr_set_next_event delta clk w).2.trace.drop w.trace.length,
      ∃ r v, e = Event.write r v true) := by
  rw [tick_tmr_set_next_event_eq]
  refine ⟨rfl, by simp, ?_⟩
  intro e he
  simp at he
  rcases he with h | h | h <;> subst h <;> exact ⟨_, _, rfl⟩

theorem testBit_one_succ (j : Nat) : Nat.testBit 1 (j + 1) = false := by
  rw [Nat.testBit_succ]; simp

/-- Bit 0 of a 16-bit store of `x | 1` is set. -/
theorem or_one_u16_and_one (x : Nat) : ((x ||| 1) % 65536) &&& 1 = 1 := by
  apply Nat.eq_of_testBit_eq
  intro i
  have h16 : (65536 : Nat) = 2 ^ 16 := by decide
  rw [h16, Nat.testBit_and, Nat.testBit_mod_two_pow, testBit_or_one]
  cases i with
  | zero => simp
  | succ j => simp [testBit_one_succ]

/-- The world `tick_tmr_set_mode` leaves: `cr1` and the trace change,
nothing else does. -/
theorem tick_tmr_set_mode_eq (mode : clock_event_mode) (clk : Global) (w : World) :
    tick_tmr_set_mode mode clk w =
      { w with
          tim := { w.tim with cr1 := (tick_tmr_set_mode mode clk w).tim.cr1 }
          trace := w.trace ++
            [.write .cr1 (tick_tmr_set_mode mode clk w).tim.cr1 w.irqs_disabled] } := by
  cases mode <;>
    simp [tick_tmr_set_mode, World.write, World.poke, World.emit, World.read, Reg.width]

/-- C6: for every register state, `tick_tmr_set_mode` with a disabling mode
(SHUTDOWN or UNUSED) followed by `tick_tmr_set_mode` PERIODIC ends with the
counter-enable bit CEN of `cr1` set, and with `sr` (a pending UIF included),
`cnt`, `arr`, `psc` and `dier` exactly as before the two calls. -/
theorem tick_tmr_set_mode_disable_enable (m : clock_event_mode) (clk1 clk2 : Global)
    (w : World)
    (hm : m = .CLOCK_EVT_MODE_SHUTDOWN ∨ m = .CLOCK_EVT_MODE_UNUSED) :
    (tick_tmr_set_mode .CLOCK_EVT_MODE_PERIODIC clk2 (tick_tmr_set_mode m clk1 w)).tim.cr1
        &&& STM32_TIM_CR1_CEN = STM32_TIM_CR1_CEN ∧
    (tick_tmr_set_mode .CLOCK_EVT_MODE_PERIODIC clk2 (tick_tmr_set_mode m clk1 w)).tim.sr
        = w.tim.sr ∧
    (tick_tmr_set_mode .CLOCK_EVT_MODE_PERIODIC clk2 (tick_tmr_set_mode m clk1 w)).tim.cnt
        = w.tim.cnt ∧
    (tick_tmr_set_mode .CLOCK_EVT_MODE_PERIODIC clk2 (tick_tmr_set_mode m clk1 w)).tim.arr
        = w.tim.arr ∧
    (tick_tmr_set_mode .CLOCK_EVT_MODE_PERIODIC clk2 (tick_tmr_set_mode m clk1 w)).tim.psc
        = w.tim.psc ∧
    (tick_tmr_set_mode .CLOCK_EVT_MODE_PERIODIC clk2 (tick_tmr_set_mode m clk1 w)).tim.dier
        = w.tim.dier := by
  refine ⟨?_, ?_, ?_, ?_, ?_, ?_⟩
  · rw [tick_tmr_set_mode_cr1, if_pos (Or.inl rfl), CEN_eq]
    exact or_one_u16_and_one _
  all_goals
    rw [tick_tmr_set_mode_eq .CLOCK_EVT_MODE_PERIODIC, tick_tmr_set_mode_eq m]

/-- C6 at a concrete input: SHUTDOWN then PERIODIC on a state with UIF
pending (`sr = 0x1F`) leaves CEN set and `sr = 0x1F`. -/
theorem tick_tmr_set_mode_disable_enable_witness :
    (tick_tmr_set_mode .CLOCK_EVT_MODE_PERIODIC .tick_tmr_clockevent
        (tick_tmr_set_mode .CLOCK_EVT_MODE_SHUTDOWN .tick_tmr_clockevent w_run)).tim.cr1
        &&& STM32_TIM_CR1_CEN = STM32_TIM_CR1_CEN ∧
    (tick_tmr_set_mode .CLOCK_EVT_MODE_PERIODIC .tick_tmr_clockevent
        (tick_tmr_set_mode .CLOCK_EVT_MODE_SHUTDOWN .tick_tmr_clockevent w_run)).tim.sr
        = 0x1F :=
  ⟨(tick_tmr_set_mode_disable_enable .CLOCK_EVT_MODE_SHUTDOWN .tick_tmr_clockevent
      .tick_tmr_clockevent w_run (Or.inl rfl)).1,
   (tick_tmr_set_mode_disable_enable .CLOCK_EVT_MODE_SHUTDOWN .tick_tmr_clockevent
      .tick_tmr_clockevent w_run (Or.inl rfl)).2.1⟩

/-! ## Interrupt handler -/

/-- A 16-bit value with bit 0 clear is unchanged by `& 0xFFFE`. -/
theorem and_fffe_of_clear {x : Nat} (hx : x < 65536) (h : x &&& 1 = 0) :
    x &&& 65534 = x := by
  apply Nat.eq_of_testBit_eq
  intro i
  rw [testBit_and_fffe hx]
  cases i with
  | zero =>
    have h0 : x.testBit 0 = false := by
      have := congrArg (fun y => Nat.testBit y 0) h
      simpa [Nat.testBit_and] using this
    simp [h0]
  | succ j => simp

/-- The outcome of `tick_tmr_irq_handler`, written out. -/
theorem tick_tmr_irq_handler_eq (env : Env) (irq : Int) (dev_id : Nat) (w : World) :
    tick_tmr_irq_handler env irq dev_id w =
      if w.evt.event_handler = 0 then
        .fault { w with
                  tim := { w.tim with sr := (w.tim.sr % 65536) &&& 65534 }
                  trace := w.trace ++
                    [.write .sr ((w.tim.sr % 65536) &&& 65534) w.irqs_disabled] }
      else
        .returned .IRQ_HANDLED
          (env.event_handler w.evt.event_handler .tick_tmr_clockevent
            { w with
                tim := { w.tim with sr := (w.tim.sr % 65536) &&& 65534 }
                trace := w.trace ++
                  [.write .sr ((w.tim.sr % 65536) &&& 65534) w.irqs_disabled,
                   .call_event_handler w.evt.event_handler .tick_tmr_clockevent] }) := by
  simp [tick_tmr_irq_handler, World.write, World.poke, World.emit, World.read, Reg.width,
    and_cnot_one_u16]

/-- C3: for every register state (a 16-bit `sr`) with a callback registered,
one run of `tick_tmr_irq_handler` first writes `sr = old sr & ~UIF` (bit 0
cleared, the other status bits unchanged), then calls the registered event
callback, once, with `tick_tmr_clockevent` as argument and on the world that
write left, and returns `IRQ_HANDLED` with the world the callback left. -/
theorem tick_tmr_irq_handler_serves (env : Env) (irq : Int) (dev_id : Nat) (w : World)
    (hcb : w.evt.event_handler ≠ 0) (hsr : w.tim.sr < 2 ^ 16) :
    tick_tmr_irq_handler env irq dev_id w =
      .returned .IRQ_HANDLED
        (env.event_handler w.evt.event_handler .tick_tmr_clockevent
          { w with
              tim := { w.tim with sr := w.tim.sr &&& (0xFFFF - STM32_TIM_SR_UIF) }
              trace := w.trace ++
                [.write .sr (w.tim.sr &&& (0xFFFF - STM32_TIM_SR_UIF)) w.irqs_disabled,
                 .call_event_handler w.evt.event_handler .tick_tmr_clockevent] }) ∧
    (w.tim.sr &&& (0xFFFF - STM32_TIM_SR_UIF)).testBit 0 = false ∧
    (∀ i, 1 ≤ i →
      (w.tim.sr &&& (0xFFFF - STM32_TIM_SR_UIF)).testBit i = w.tim.sr.testBit i) := by
  have hlt : w.tim.sr < 65536 := hsr
  refine ⟨?_, ?_, ?_⟩
  · rw [tick_tmr_irq_handler_eq, if_neg hcb, Nat.mod_eq_of_lt hlt]
    rfl
  · simp [testBit_and_fffe hlt]
  · intro i hi
    simp [testBit_and_fffe hlt, hi]

/-- C3 at a concrete input: UIF pending among other status bits
(`sr = 0x1F`), the callback re-arms the timer for 100 ticks. -/
theorem tick_tmr_irq_handler_serves_witness :
    (w_run.evt.event_handler ≠ 0 ∧ w_run.tim.sr < 2 ^ 16) ∧
    tick_tmr_irq_handler env0 28 0 w_run =
      .returned .IRQ_HANDLED
        (env0.event_handler w_run.evt.event_handler .tick_tmr_clockevent
          { w_run with
              tim := { w_run.tim with sr := w_run.tim.sr &&& (0xFFFF - STM32_TIM_SR_UIF) }
              trace := w_run.trace ++
                [.write .sr (w_run.tim.sr &&& (0xFFFF - STM32_TIM_SR_UIF))
                   w_run.irqs_disabled,
                 .call_event_handler w_run.evt.event_handler .tick_tmr_clockevent] }) :=
  ⟨⟨by decide, by decide⟩,
   (tick_tmr_irq_handler_serves env0 28 0 w_run (by decide) (by decide)).1⟩

/-- C5, as stated, fails: with no callback registered the handler does not
return; it faults at the call through the null `event_handler`. -/
theorem tick_tmr_irq_handler_null_counterexample :
    w_nocb.evt.event_handler = 0 ∧
    (tick_tmr_irq_handler env0 28 0 w_nocb).isReturned = false ∧
    (tick_tmr_irq_handler env0 28 0 w_nocb).world.tim.sr = 0x1E := by
  refine ⟨rfl, ?_, ?_⟩ <;> rw [tick_tmr_irq_handler_eq] <;> decide

/-- C5, amended: when no event callback is registered (`event_handler` is
null), `tick_tmr_irq_handler` still clears the update-interrupt flag UIF in
`sr` (a 16-bit `sr`; its only register write, the other status bits
unchanged) and then faults at the unguarded call through the null pointer:
it does not return. -/
theorem tick_tmr_irq_handler_null (env : Env) (irq : Int) (dev_id : Nat) (w : World)
    (hnull : w.evt.event_handler = 0) (hsr : w.tim.sr < 2 ^ 16) :
    tick_tmr_irq_handler env irq dev_id w =
      .fault { w with
                tim := { w.tim with sr := w.tim.sr &&& (0xFFFF - STM32_TIM_SR_UIF) }
                trace := w.trace ++
                  [.write .sr (w.tim.sr &&& (0xFFFF - STM32_TIM_SR_UIF))
                     w.irqs_disabled] } ∧
    (tick_tmr_irq_handler env irq dev_id w).isReturned = false := by
  have hlt : w.tim.sr < 65536 := hsr
  rw [tick_tmr_irq_handler_eq, if_pos hnull, Nat.mod_eq_of_lt hlt]
  exact ⟨rfl, rfl⟩

/-- C5 amended, at a concrete input: `sr = 0x1F`, no callback. -/
theorem tick_tmr_irq_handler_null_witness :
    (w_nocb.evt.event_handler = 0 ∧ w_nocb.tim.sr < 2 ^ 16) ∧
    (tick_tmr_irq_handler env0 28 0 w_nocb).isReturned = false :=
  ⟨⟨rfl, by decide⟩, (tick_tmr_irq_handler_null env0 28 0 w_nocb rfl (by decide)).2⟩

/-- C8, as stated, fails: with UIF not pending (`sr = 0x1E`) and a callback
registered, the handler still calls the callback, which here re-arms the
timer (`arr` goes from 1000 to 100, `cnt` from 57 to 0); the outcome is not
the status write alone. -/
theorem tick_tmr_irq_handler_idle_counterexample :
    w_idle.tim.sr &&& STM32_TIM_SR_UIF = 0 ∧
    tick_tmr_irq_handler env0 28 0 w_idle ≠
      .returned .IRQ_HANDLED (w_idle.write .sr (w_idle.read .sr &&& cnot STM32_TIM_SR_UIF)) ∧
    Event.call_event_handler 0x08001234 .tick_tmr_clockevent ∈
      (tick_tmr_irq_handler env0 28 0 w_idle).world.trace ∧
    (tick_tmr_irq_handler env0 28 0 w_idle).world.tim.arr = 100 ∧
    (tick_tmr_irq_handler env0 28 0 w_idle).world.tim.cnt = 0 := by
  refine ⟨by decide, ?_, ?_, ?_, ?_⟩ <;> rw [tick_tmr_irq_handler_eq] <;>
    simp [w_idle, w_run, env0, tim_zero, tick_tmr_set_next_event_eq, Outcome.world,
      World.write, World.poke, World.emit, World.read, Reg.width]

/-- C8, amended: when `tick_tmr_irq_handler` is invoked on a state where the
update-interrupt flag UIF is not pending in `sr` (a 16-bit `sr`, a callback
registered), the status write stores `sr` back unchanged and the handler
still calls the registered event callback, once, and returns `IRQ_HANDLED`:
the call does not depend on UIF. -/
theorem tick_tmr_irq_handler_idle (env : Env) (irq : Int) (dev_id : Nat) (w : World)
    (hcb : w.evt.event_handler ≠ 0) (hsr : w.tim.sr < 2 ^ 16)
    (hidle : w.tim.sr &&& STM32_TIM_SR_UIF = 0) :
    tick_tmr_irq_handler env irq dev_id w =
      .returned .IRQ_HANDLED
        (env.event_handler w.evt.event_handler .tick_tmr_clockevent
          { w with
              trace := w.trace ++
                [.write .sr w.tim.sr w.irqs_disabled,
                 .call_event_handler w.evt.event_handler .tick_tmr_clockevent] }) := by
  have hlt : w.tim.sr < 65536 := hsr
  rw [tick_tmr_irq_handler_eq, if_neg hcb, Nat.mod_eq_of_lt hlt,
    and_fffe_of_clear hlt (by simpa using hidle)]

/-- C8 amended, at a concrete input: `sr = 0x1E`, the callback re-arms the
timer for 100 ticks. -/
theorem tick_tmr_irq_handler_idle_witness :
    (w_idle.evt.event_handler ≠ 0 ∧ w_idle.tim.sr < 2 ^ 16 ∧
      w_idle.tim.sr &&& STM32_TIM_SR_UIF = 0) ∧
    tick_tmr_irq_handler env0 28 0 w_idle =
      .returned .IRQ_HANDLED
        (env0.event_handler w_idle.evt.event_handler .tick_tmr_clockevent
          { w_idle with
              trace := w_idle.trace ++
                [.write .sr w_idle.tim.sr w_idle.irqs_disabled,
                 .call_event_handler w_idle.evt.event_handler .tick_tmr_clockevent] }) :=
  ⟨⟨by decide, by decide, by decide⟩,
   tick_tmr_irq_handler_idle env0 28 0 w_idle (by decide) (by decide) (by decide)⟩

/-! ## Initialisation -/

/-- Setting bit 0 and then clearing it is clearing it. -/
theorem or_one_and_clear_u32 {x : Nat} (hx : x < 4294967296) :
    (x ||| 1) &&& 4294967294 = x &&& 4294967294 := by
  have hx1 : x ||| 1 < 4294967296 := Nat.or_lt_two_pow (n := 32) hx (by decide)
  apply Nat.eq_of_testBit_eq
  intro i
  rw [testBit_and_fffffffe hx1, testBit_and_fffffffe hx, testBit_or_one]
  cases i with
  | zero => simp
  | succ j => simp

/-- The outcome of `tick_tmr_init` for a non-zero 32-bit frequency, written
out. -/
theorem tick_tmr_init_eq (env : Env) (f : Nat) (w : World)
    (hf0 : 0 < f) (hf : f < 4294967296) :
    tick_tmr_init env f w =
      .returned ()
        { tim := { w.tim with
                    cr1 := 0
                    arr := 4294967295
                    psc := 0
                    cnt := 0
                    egr := 1
                    dier := (w.tim.dier ||| 1) % 65536 }
          rcc := { apb1enr := (w.rcc.apb1enr ||| 1) % 4294967296
                   apb1rstr := ((w.rcc.apb1rstr ||| 1) % 4294967296) &&& 4294967294 }
          evt := { w.evt with
                    mult := (env.clockevents_calc_mult_shift f (4294967295 / f)).1
                    shift := (env.clockevents_calc_mult_shift f (4294967295 / f)).2
                    max_delta_ns :=
                      env.clockevent_delta2ns 4294967280
                        { w.evt with
                            mult := (env.clockevents_calc_mult_shift f (4294967295 / f)).1
                            shift := (env.clockevents_calc_mult_shift f (4294967295 / f)).2 }
                    min_delta_ns :=
                      env.clockevent_delta2ns 15
                        { w.evt with
                            mult := (env.clockevents_calc_mult_shift f (4294967295 / f)).1
                            shift := (env.clockevents_calc_mult_shift f (4294967295 / f)).2
                            max_delta_ns :=
                              env.clockevent_delta2ns 4294967280
                                { w.evt with
                                    mult :=
                                      (env.clockevents_calc_mult_shift f (4294967295 / f)).1
                                    shift :=
                                      (env.clockevents_calc_mult_shift f
                                        (4294967295 / f)).2 } } }
          irqs_disabled := w.irqs_disabled
          trace := w.trace ++
            [.write .apb1enr ((w.rcc.apb1enr ||| 1) % 4294967296) w.irqs_disabled,
             .write .apb1rstr ((w.rcc.apb1rstr ||| 1) % 4294967296) w.irqs_disabled,
             .write .apb1rstr (((w.rcc.apb1rstr ||| 1) % 4294967296) &&& 4294967294)
               w.irqs_disabled,
             .write .cr1 0 w.irqs_disabled,
             .write .arr 4294967295 w.irqs_disabled,
             .write .psc 0 w.irqs_disabled,
             .write .cnt 0 w.irqs_disabled,
             .write .egr 1 w.irqs_disabled,
             .setup_irq 28 .tick_tmr_irqaction,
             .write .dier ((w.tim.dier ||| 1) % 65536) w.irqs_disabled,
             .clockevents_calc_mult_shift .tick_tmr_clockevent f (4294967295 / f),
             .clockevent_delta2ns 4294967280 .tick_tmr_clockevent,
             .clockevent_delta2ns 15 .tick_tmr_clockevent,
             .clockevents_register_device .tick_tmr_clockevent] } := by
  have hne : f ≠ 0 := by omega
  simp [tick_tmr_init, Nat.mod_eq_of_lt hf, hne, setup_irq, clockevents_calc_mult_shift,
    clockevent_delta2ns, clockevents_register_device, World.write, World.poke, World.emit,
    World.read, Reg.width, and_cnot_one_u32]

theorem or_one_and_one (x : Nat) : (x ||| 1) &&& 1 = 1 := by
  apply Nat.eq_of_testBit_eq
  intro i
  rw [Nat.testBit_and, testBit_or_one]
  cases i with
  | zero => simp
  | succ j => simp [testBit_one_succ]

theorem and_clear_and_one (x : Nat) : (x &&& 4294967294) &&& 1 = 0 := by
  rw [Nat.and_assoc]
  have h : (4294967294 : Nat) &&& 1 = 0 := by decide
  rw [h, Nat.and_zero]

/-- C4: for every input frequency `f > 0` (a `u32`) and every prior register
state (register values within their widths), `tick_tmr_init f` returns and
leaves `cr1 = 0`, `arr = 0xFFFFFFFF`, `psc = 0`, `cnt = 0`, `egr` written with
UG, the UIE bit of `dier` set, the TIM2 bit of the RCC clock-enable register
set, and the TIM2 bit of the RCC reset register clear, after a write that set
it and a later write that cleared it; the events of the run are the listed
ones, in this order. -/
theorem tick_tmr_init_registers (env : Env) (f : Nat) (w : World)
    (hf0 : 0 < f) (hf : f < 2 ^ 32) (hdier : w.tim.dier < 2 ^ 16)
    (henr : w.rcc.apb1enr < 2 ^ 32) (hrst : w.rcc.apb1rstr < 2 ^ 32) :
    (tick_tmr_init env f w).isReturned = true ∧
    (tick_tmr_init env f w).world.tim.cr1 = 0 ∧
    (tick_tmr_init env f w).world.tim.arr = 0xFFFFFFFF ∧
    (tick_tmr_init env f w).world.tim.psc = 0 ∧
    (tick_tmr_init env f w).world.tim.cnt = 0 ∧
    (tick_tmr_init env f w).world.tim.egr = STM32_TIM_EGR_UG ∧
    (tick_tmr_init env f w).world.tim.dier = w.tim.dier ||| STM32_TIM_DIER_UIE ∧
    (tick_tmr_init env f w).world.tim.dier &&& STM32_TIM_DIER_UIE = STM32_TIM_DIER_UIE ∧
    (tick_tmr_init env f w).world.rcc.apb1enr = w.rcc.apb1enr ||| TICK_TIM_RCC_MSK ∧
    (tick_tmr_init env f w).world.rcc.apb1enr &&& TICK_TIM_RCC_MSK = TICK_TIM_RCC_MSK ∧
    (tick_tmr_init env f w).world.rcc.apb1rstr =
      w.rcc.apb1rstr &&& (0xFFFFFFFF - TICK_TIM_RCC_MSK) ∧
    (tick_tmr_init env f w).world.rcc.apb1rstr &&& TICK_TIM_RCC_MSK = 0 ∧
    (tick_tmr_init env f w).world.trace =
      w.trace ++
        [.write .apb1enr (w.rcc.apb1enr ||| TICK_TIM_RCC_MSK) w.irqs_disabled,
         .write .apb1rstr (w.rcc.apb1rstr ||| TICK_TIM_RCC_MSK) w.irqs_disabled,
         .write .apb1rstr (w.rcc.apb1rstr &&& (0xFFFFFFFF - TICK_TIM_RCC_MSK))
           w.irqs_disabled,
         .write .cr1 0 w.irqs_disabled,
         .write .arr 0xFFFFFFFF w.irqs_disabled,
         .write .psc 0 w.irqs_disabled,
         .write .cnt 0 w.irqs_disabled,
         .write .egr STM32_TIM_EGR_UG w.irqs_disabled,
         .setup_irq TICK_TIM_IRQ .tick_tmr_irqaction,
         .write .dier (w.tim.dier ||| STM32_TIM_DIER_UIE) w.irqs_disabled,
         .clockevents_calc_mult_shift .tick_tmr_clockevent f (0xFFFFFFFF / f),
         .clockevent_delta2ns 0xFFFFFFF0 .tick_tmr_clockevent,
         .clockevent_delta2ns 0xF .tick_tmr_clockevent,
         .clockevents_register_device .tick_tmr_clockevent] := by
  have h1 : w.tim.dier < 65536 := hdier
  have h2 : w.rcc.apb1enr < 4294967296 := henr
  have h3 : w.rcc.apb1rstr < 4294967296 := hrst
  rw [tick_tmr_init_eq env f w hf0 hf]
  simp only [Outcome.isReturned, Outcome.world, or_one_u16 h1, or_one_u32 h2, or_one_u32 h3,
    or_one_and_clear_u32 h3, UG_eq, UIE_eq, RCC_MSK_eq, TICK_IRQ_eq, or_one_and_one,
    and_clear_and_one]
  simp

/-- C4 at a concrete input: 24 MHz on a running timer (`cr1 = 0x81`,
`cnt = 57`, `arr = 1000`). -/
theorem tick_tmr_init_registers_witness :
    ((0 < 24000000 ∧ 24000000 < 2 ^ 32) ∧ w_run.tim.dier < 2 ^ 16 ∧
      w_run.rcc.apb1enr < 2 ^ 32 ∧ w_run.rcc.apb1rstr < 2 ^ 32) ∧
    (tick_tmr_init env0 24000000 w_run).isReturned = true ∧
    (tick_tmr_init env0 24000000 w_run).world.tim.cr1 = 0 ∧
    (tick_tmr_init env0 24000000 w_run).world.tim.arr = 0xFFFFFFFF :=
  ⟨⟨⟨by decide, by decide⟩, by decide, by decide, by decide⟩,
   (tick_tmr_init_registers env0 24000000 w_run (by decide) (by decide) (by decide)
      (by decide) (by decide)).1,
   (tick_tmr_init_registers env0 24000000 w_run (by decide) (by decide) (by decide)
      (by decide) (by decide)).2.1,
   (tick_tmr_init_registers env0 24000000 w_run (by decide) (by decide) (by decide)
      (by decide) (by decide)).2.2.1⟩

/-- C9: for every input frequency `f > 0` (a `u32`), `tick_tmr_init f`
derives the multiplier and shift for frequency `f` with conversion range
`0xFFFFFFFF / f` seconds (178 for 24 MHz), then sets `max_delta_ns` to the
conversion of `0xFFFFFFF0` ticks and `min_delta_ns` to the conversion of
`0xF` ticks; the calls it makes are the listed ones for every `f`, the two
tick bounds satisfy `0xF < 0xFFFFFFF0`, and the maximum is strictly below
the reload value `0xFFFFFFFF` that the same run stores into `arr`. -/
theorem tick_tmr_init_delta_bounds (env : Env) (f : Nat) (w : World)
    (hf0 : 0 < f) (hf : f < 2 ^ 32) :
    (tick_tmr_init env f w).isReturned = true ∧
    ((tick_tmr_init env f w).world.evt.mult, (tick_tmr_init env f w).world.evt.shift) =
      env.clockevents_calc_mult_shift f (0xFFFFFFFF / f) ∧
    (tick_tmr_init env f w).world.evt.max_delta_ns =
      env.clockevent_delta2ns 0xFFFFFFF0
        { w.evt with
            mult := (tick_tmr_init env f w).world.evt.mult
            shift := (tick_tmr_init env f w).world.evt.shift } ∧
    (tick_tmr_init env f w).world.evt.min_delta_ns =
      env.clockevent_delta2ns 0xF
        { w.evt with
            mult := (tick_tmr_init env f w).world.evt.mult
            shift := (tick_tmr_init env f w).world.evt.shift
            max_delta_ns := (tick_tmr_init env f w).world.evt.max_delta_ns } ∧
    ((tick_tmr_init env f w).world.trace.drop w.trace.length).filter
        (fun e => !e.isWrite) =
      [.setup_irq TICK_TIM_IRQ .tick_tmr_irqaction,
       .clockevents_calc_mult_shift .tick_tmr_clockevent f (0xFFFFFFFF / f),
       .clockevent_delta2ns 0xFFFFFFF0 .tick_tmr_clockevent,
       .clockevent_delta2ns 0xF .tick_tmr_clockevent,
       .clockevents_register_device .tick_tmr_clockevent] ∧
    (f = 24000000 → 0xFFFFFFFF / f = 178) ∧
    (0xF : Nat) < 0xFFFFFFF0 ∧
    0xFFFFFFF0 < (tick_tmr_init env f w).world.tim.arr := by
  rw [tick_tmr_init_eq env f w hf0 hf]
  refine ⟨rfl, rfl, rfl, rfl, ?_, ?_, by decide, ?_⟩
  · simp [Outcome.world, Event.isWrite]
  · intro h
    subst h
    decide
  · simp [Outcome.world]

/-- C9 at a concrete input: 24 MHz gives a conversion range of 178 seconds,
and the two conversions are taken at `0xFFFFFFF0` and `0xF` ticks. -/
theorem tick_tmr_init_delta_bounds_witness :
    (0 < 24000000 ∧ 24000000 < 2 ^ 32) ∧
    ((tick_tmr_init env0 24000000 w_run).world.trace.drop w_run.trace.length).filter
        (fun e => !e.isWrite) =
      [.setup_irq 28 .tick_tmr_irqaction,
       .clockevents_calc_mult_shift .tick_tmr_clockevent 24000000 178,
       .clockevent_delta2ns 0xFFFFFFF0 .tick_tmr_clockevent,
       .clockevent_delta2ns 0xF .tick_tmr_clockevent,
       .clockevents_register_device .tick_tmr_clockevent] ∧
    0xFFFFFFFF / 24000000 = 178 :=
  ⟨⟨by decide, by decide⟩,
   (tick_tmr_init_delta_bounds env0 24000000 w_run (by decide) (by decide)).2.2.2.2.1,
   (tick_tmr_init_delta_bounds env0 24000000 w_run (by decide) (by decide)).2.2.2.2.2.1 rfl⟩

end Stm32Timer
